import Mathlib

/-
Verification of the fastspring-py client (src/fastspring/api.py).

The module is a thin HTTP client: each public method of FastSpringAPI builds
a path, optionally serializes a payload mapping to markup, issues one request
through the internal helper, and interprets the resulting
(content, status, message, reason) 4-tuple.

Embedding choices:
- The HTTP transport (requests.request) is a function parameter of type
  SentRequest -> HttpResponse, so theorems quantify over every possible
  remote response.
- xmltodict.parse on response bodies is an abstract parameter of type
  String -> Option Mapping (none models a raised parse error such as
  ExpatError on an empty or malformed document); response body strings come
  from outside the program, so their parse is not computed here.
- xmltodict.unparse for request payloads, and the round-trip claim, are
  modelled at the level of the markup document tree (tag-per-key markup as
  the spec describes the wire format); rendering the tree to a string is a
  separate step whose output no claim inspects.
- Python control flow is mirrored branch for branch; an operation that can
  raise returns an OpOutcome, whose fsexc constructor is a raised
  FastSpringException, parseError a raised parse exception, noneRet the
  implicit return None, and mapping a returned dict.
-/

set_option autoImplicit false

namespace FastSpring

/- Payload values: a dict maps field names to strings or nested dicts.
Mirrors the dict payloads the client sends and receives (spec data model:
string leaves and nested mappings; the claims concern string-valued leaves). -/
mutual

inductive Value where
  | str : String → Value
  | map : Mapping → Value
  deriving DecidableEq

inductive Mapping where
  | nil : Mapping
  | cons : String → Value → Mapping → Mapping
  deriving DecidableEq

end

/- Markup document trees: a node is either character data or an element with
a tag name and a list of children. This is the shape of the tag-per-key
markup the serializer emits. -/
mutual

inductive Node where
  | text : String → Node
  | elem : String → NodeList → Node
  deriving DecidableEq

inductive NodeList where
  | nil : NodeList
  | cons : Node → NodeList → NodeList
  deriving DecidableEq

end

/- Modelled from the spec: xmltodict.unparse serializes a mapping into
tag-per-key markup, one element per key, character data for string leaves
(the library itself is not part of this repository). -/
mutual

def unparseValue : Value → NodeList
  | .str s => .cons (.text s) .nil
  | .map m => unparseMapping m

def unparseMapping : Mapping → NodeList
  | .nil => .nil
  | .cons k v rest => .cons (.elem k (unparseValue v)) (unparseMapping rest)

end

/- Modelled from the spec: responses are parsed the inverse way into a
mapping (xmltodict.parse, not part of this repository). A lone text child is
a string leaf; element children are the entries of a nested mapping; mixed
content is rejected. -/
mutual

def parseValue : NodeList → Option Value
  | .nil => some (.map .nil)
  | .cons (.text s) .nil => some (.str s)
  | .cons (.text _) (.cons _ _) => none
  | .cons (.elem k kids) rest => do
      let v ← parseValue kids
      let m ← parseMapping rest
      some (.map (.cons k v m))

def parseMapping : NodeList → Option Mapping
  | .nil => some .nil
  | .cons (.text _) _ => none
  | .cons (.elem k kids) rest => do
      let v ← parseValue kids
      let m ← parseMapping rest
      some (.cons k v m)

end

/- Render a markup tree to the string handed to the transport as a request
body. No claim inspects this string, so character escaping is not modelled. -/
mutual

def renderNode : Node → String
  | .text s => s
  | .elem name kids => "<" ++ name ++ ">" ++ renderNodeList kids ++ "</" ++ name ++ ">"

def renderNodeList : NodeList → String
  | .nil => ""
  | .cons n rest => renderNode n ++ renderNodeList rest

end

/-- The string xmltodict.unparse produces for a payload mapping. -/
def xmltodictUnparse (m : Mapping) : String :=
  renderNodeList (unparseMapping m)

/-- Python values that can be passed as the simulate argument of
renew_subscription, with their truthiness and their str interpolation. -/
inductive PyVal where
  | none : PyVal
  | bool : Bool → PyVal
  | int : Int → PyVal
  | str : String → PyVal
  deriving DecidableEq

/-- Python truthiness: None, False, 0 and the empty string are falsy. -/
def PyVal.truthy : PyVal → Bool
  | .none => false
  | .bool b => b
  | .int i => i != 0
  | .str s => s != ""

/-- The result of percent-s string interpolation on the value. -/
def PyVal.fmt : PyVal → String
  | .none => "None"
  | .bool b => if b then "True" else "False"
  | .int i => toString i
  | .str s => s

/-- The data argument of the internal request helper: None, a payload dict,
or a raw string (only renew_subscription passes a raw string). -/
inductive ReqBody where
  | none : ReqBody
  | dict : Mapping → ReqBody
  | raw : String → ReqBody
  deriving DecidableEq

def Mapping.isEmpty : Mapping → Bool
  | .nil => true
  | .cons _ _ _ => false

/-- Python truthiness of the data argument. -/
def ReqBody.truthy : ReqBody → Bool
  | .none => false
  | .dict m => !m.isEmpty
  | .raw s => s != ""

/-- The body the transport actually receives from requests.request. -/
inductive SentBody where
  | noBody : SentBody
  | str : String → SentBody
  | formEncoded : Mapping → SentBody
  deriving DecidableEq

/-- Lines 117-120 of api.py: if data and not skip_unparse then
body = xmltodict.unparse(data) else body = data. A falsy data (None or an
empty string) reaches requests unchanged and sends no body; a dict surviving
to the else branch would be form-encoded by requests, but no caller passes a
dict together with skip_unparse, and unparse of a raw string (which would
raise in the library) is likewise unreachable because every raw body in this
client sets skip_unparse. -/
def computeBody (data : ReqBody) (skip_unparse : Bool) : SentBody :=
  if data.truthy && !skip_unparse then
    match data with
    | .dict m => .str (xmltodictUnparse m)
    | .raw s => .str s
    | .none => .noBody
  else
    match data with
    | .none => .noBody
    | .raw s => .str s
    | .dict m => .formEncoded m

/-- The configured base URL, split as urlparse sees it: the scheme plus
network location, and the path that follows (possibly empty, possibly just a
slash, possibly with or without a trailing slash). -/
structure BaseUrl where
  scheme_netloc : String
  path : String
  deriving DecidableEq

/-- Modelled from the spec: urlparse.urljoin of the base URL with an
absolute-path reference (request_path always begins with a slash) keeps the
scheme and network location of the base and discards its path, the reference
becoming the path component of the result. -/
def urljoin (base : BaseUrl) (absRef : String) : String :=
  base.scheme_netloc ++ absRef

/-- The client configuration set in the constructor (api.py lines 30-38). -/
structure FastSpringAPI where
  username : String
  password : String
  company : String
  api_base_url : BaseUrl

/-- FastSpringException(detail, status, message, reason), api.py lines 22-25. -/
structure FastSpringException where
  detail : String
  status : Nat
  message : String
  reason : String
  deriving DecidableEq

/-- What the transport reports back: response.content, response.status_code
and response.reason (api.py lines 134-137). -/
structure HttpResponse where
  content : String
  status_code : Nat
  reason : String
  deriving DecidableEq

/-- The outbound request handed to requests.request (api.py lines 126-132). -/
structure SentRequest where
  method : String
  url : String
  body : SentBody
  content_type : String
  auth_username : String
  auth_password : String
  deriving DecidableEq

/-- The transport: what remote response each outbound request produces. -/
abbrev Transport := SentRequest → HttpResponse

/-- Abstract xmltodict.parse on response body strings; none models a raised
parse exception (for instance on an empty document). -/
abbrev XmlParse := String → Option Mapping

/-- How a call to an operation completes: a returned parsed mapping, an
implicit return None, a raised FastSpringException, or a raised parse
exception. Exactly one constructor applies, which embeds the fact that a
Python call returns or raises but never both. -/
inductive OpOutcome where
  | mapping : Mapping → OpOutcome
  | noneRet : OpOutcome
  | fsexc : FastSpringException → OpOutcome
  | parseError : OpOutcome
  deriving DecidableEq

/-- True when the call produced a result or an error: everything except the
implicit return None. -/
def OpOutcome.settles : OpOutcome → Bool
  | .noneRet => false
  | _ => true

def OpOutcome.isMapping : OpOutcome → Bool
  | .mapping _ => true
  | _ => false

def OpOutcome.isFsExc : OpOutcome → Bool
  | .fsexc _ => true
  | _ => false

/-- True unless the call raised a FastSpringException whose message field is
not the empty string. -/
def OpOutcome.messageOk : OpOutcome → Bool
  | .fsexc e => e.message == ""
  | _ => true

/-- Lifts the outcome of xmltodict.parse on a body to a call outcome. -/
def parseOutcome (o : Option Mapping) : OpOutcome :=
  match o with
  | some m => .mapping m
  | none => .parseError

/-- The request _request builds and sends (api.py lines 113-132): body per
computeBody, URL urljoin(api_base_url, company-scoped path), fixed XML
content type, basic authentication from the configuration. -/
def _request_sent (api : FastSpringAPI) (method path : String) (data : ReqBody)
    (skip_unparse : Bool) : SentRequest :=
  ⟨method, urljoin api.api_base_url ("/company/" ++ api.company ++ "/" ++ path),
    computeBody data skip_unparse, "application/xml", api.username, api.password⟩

/-- _request (api.py lines 113-138): sends the request and returns the
4-tuple (content, status_code, message, reason) where message is always
the literal empty string. -/
def _request (api : FastSpringAPI) (method path : String) (data : ReqBody)
    (skip_unparse : Bool) (transport : Transport) : String × Nat × String × String :=
  let resp := transport (_request_sent api method path data skip_unparse)
  (resp.content, resp.status_code, "", resp.reason)

/-- get_order (api.py lines 40-51): GET order/{reference}; a truthy (non
empty) content is parsed and returned, otherwise a FastSpringException is
raised. -/
def get_order (api : FastSpringAPI) (transport : Transport) (xp : XmlParse)
    (reference : String) : OpOutcome :=
  let (content, status, message, reason) :=
    _request api "GET" ("order/" ++ reference) ReqBody.none false transport
  if content ≠ "" then
    parseOutcome (xp content)
  else
    .fsexc ⟨"Could not get order information", status, message, reason⟩

/-- generate_coupon (api.py lines 53-64): POST coupon/{prefix}/generate;
same shape as get_order with its own detail string. -/
def generate_coupon (api : FastSpringAPI) (transport : Transport) (xp : XmlParse)
    (pfx : String) : OpOutcome :=
  let (content, status, message, reason) :=
    _request api "POST" ("coupon/" ++ pfx ++ "/generate") ReqBody.none false transport
  if content ≠ "" then
    parseOutcome (xp content)
  else
    .fsexc ⟨"Could not generate coupon", status, message, reason⟩

/-- get_subscription (api.py lines 66-74): GET subscription/{reference};
the body is parsed unconditionally, no status or emptiness check. -/
def get_subscription (api : FastSpringAPI) (transport : Transport) (xp : XmlParse)
    (reference : String) : OpOutcome :=
  let (content, _status, _message, _reason) :=
    _request api "GET" ("subscription/" ++ reference) ReqBody.none false transport
  parseOutcome (xp content)

/-- update_subscription (api.py lines 76-80): PUT subscription/{reference}
with body {subscription: subscription_data}; a non-200 status raises,
otherwise the content is parsed and returned. -/
def update_subscription (api : FastSpringAPI) (transport : Transport) (xp : XmlParse)
    (reference : String) (subscription_data : Mapping) : OpOutcome :=
  let (content, status, message, reason) :=
    _request api "PUT" ("subscription/" ++ reference)
      (ReqBody.dict (Mapping.cons "subscription" (Value.map subscription_data) Mapping.nil))
      false transport
  if status ≠ 200 then
    .fsexc ⟨"Could not update subscription", status, message, reason⟩
  else
    parseOutcome (xp content)

/-- cancel_subscription (api.py lines 82-93): DELETE subscription/{reference};
a truthy content is parsed and returned; an empty content raises only when
the status is not 200, and otherwise falls through to return None. -/
def cancel_subscription (api : FastSpringAPI) (transport : Transport) (xp : XmlParse)
    (reference : String) : OpOutcome :=
  let (content, status, message, reason) :=
    _request api "DELETE" ("subscription/" ++ reference) ReqBody.none false transport
  if content ≠ "" then
    parseOutcome (xp content)
  else if status ≠ 200 then
    .fsexc ⟨"Could not cancel subscription", status, message, reason⟩
  else
    .noneRet

/-- The data argument renew_subscription builds from simulate (api.py lines
102-105): the raw string simulate=value when simulate is truthy, else None. -/
def renewData (simulate : PyVal) : ReqBody :=
  if simulate.truthy then .raw ("simulate=" ++ simulate.fmt) else .none

/-- renew_subscription (api.py lines 95-111): POST subscription/{ref}/renew
with skip_unparse, returning (success, status, message, reason); it has no
raise site, so it is a total function into the tuple type. -/
def renew_subscription (api : FastSpringAPI) (transport : Transport)
    (reference : String) (simulate : PyVal) : Bool × Nat × String × String :=
  let (_content, status, message, reason) :=
    _request api "POST" ("subscription/" ++ reference ++ "/renew")
      (renewData simulate) true transport
  if status = 200 then
    (true, status, message, reason)
  else
    (false, status, message, reason)

/-- A concrete client configuration, used to evaluate the operations. -/
def apiW : FastSpringAPI :=
  ⟨"user", "secret", "acme", ⟨"https://api.example.com", ""⟩⟩

/-- A transport answering every request with an empty 200 response. -/
def trW : Transport := fun _ => ⟨"", 200, "OK"⟩

/-- A transport answering every request with an empty 404 response. -/
def trW404 : Transport := fun _ => ⟨"", 404, "Not Found"⟩

/-- A transport answering every request with a one-element body and 200. -/
def trWBody : Transport := fun _ => ⟨"<x>1</x>", 200, "OK"⟩

/-- The mapping the concrete parser below yields on non-empty bodies. -/
def mW : Mapping := Mapping.cons "x" (Value.str "1") Mapping.nil

/-- A concrete body parser: fails on the empty document, succeeds otherwise. -/
def xpW : XmlParse := fun s => if s = "" then none else some mW

theorem parseOutcome_eq_mapping (o : Option Mapping) (m : Mapping) :
    parseOutcome o = OpOutcome.mapping m ↔ o = some m := by
  cases o <;> simp [parseOutcome]

theorem parseOutcome_ne_fsexc (o : Option Mapping) (e : FastSpringException) :
    parseOutcome o ≠ OpOutcome.fsexc e := by
  cases o <;> simp [parseOutcome]

theorem parseOutcome_settles (o : Option Mapping) : (parseOutcome o).settles = true := by
  cases o <;> rfl

theorem parseOutcome_messageOk (o : Option Mapping) : (parseOutcome o).messageOk = true := by
  cases o <;> rfl

mutual

theorem parse_unparseValue (v : Value) : parseValue (unparseValue v) = some v := by
  cases v with
  | str s => rfl
  | map m =>
    cases m with
    | nil => rfl
    | cons k v rest =>
      have hv := parse_unparseValue v
      have hm := parse_unparseMapping rest
      simp [unparseValue, unparseMapping, parseValue, hv, hm]

theorem parse_unparseMapping (m : Mapping) : parseMapping (unparseMapping m) = some m := by
  cases m with
  | nil => rfl
  | cons k v rest =>
    have hv := parse_unparseValue v
    have hm := parse_unparseMapping rest
    simp [unparseMapping, parseMapping, hv, hm]

end

/-- C9: serializing a payload mapping (string leaves, nested mappings) to the
markup document and parsing that document back yields a mapping equal to the
original. -/
theorem serialize_parse_roundtrip (m : Mapping) :
    parseMapping (unparseMapping m) = some m :=
  parse_unparseMapping m

/-- C1: renew_subscription never raises (it is a total function into the
outcome tuple): for every configuration, reference, simulate value and
response, a 200 status yields (true, 200, empty message, reason) and any
other status yields (false, that status, empty message, reason). -/
theorem renew_subscription_outcome (api : FastSpringAPI) (reference : String)
    (simulate : PyVal) (r : HttpResponse) :
    renew_subscription api (fun _ => r) reference simulate =
      if r.status_code = 200 then (true, 200, "", r.reason)
      else (false, r.status_code, "", r.reason) := by
  by_cases h : r.status_code = 200 <;>
    simp [renew_subscription, _request, h]

/-- C7: for every configuration, operation method and resource path, the
outbound URL is the scheme and network location of the base URL followed by
the path component /company/tenant/resource, and it is unchanged when the
configured base URL carries an extra trailing slash. -/
theorem outbound_path_form (u pw c sn bp method pa : String)
    (data : ReqBody) (skip : Bool) :
    (_request_sent ⟨u, pw, c, ⟨sn, bp⟩⟩ method pa data skip).url
        = sn ++ ("/company/" ++ c ++ "/" ++ pa)
    ∧ (_request_sent ⟨u, pw, c, ⟨sn, bp ++ "/"⟩⟩ method pa data skip).url
        = (_request_sent ⟨u, pw, c, ⟨sn, bp⟩⟩ method pa data skip).url := by
  exact ⟨rfl, rfl⟩

/-- C8: the internal helper returns a 4-tuple whose protocol-message
component is always the empty string, and consequently every
FastSpringException any operation raises, and the tuple renew_subscription
returns, carry an empty message field. -/
theorem request_message_always_empty (api : FastSpringAPI) (transport : Transport)
    (xp : XmlParse) (method pa reference pfx : String) (data : ReqBody) (skip : Bool)
    (sub : Mapping) (simulate : PyVal) :
    (_request api method pa data skip transport).2.2.1 = ""
    ∧ (get_order api transport xp reference).messageOk = true
    ∧ (generate_coupon api transport xp pfx).messageOk = true
    ∧ (get_subscription api transport xp reference).messageOk = true
    ∧ (update_subscription api transport xp reference sub).messageOk = true
    ∧ (cancel_subscription api transport xp reference).messageOk = true
    ∧ (renew_subscription api transport reference simulate).2.2.1 = "" := by
  refine ⟨rfl, ?_, ?_, ?_, ?_, ?_, ?_⟩
  · simp only [get_order, _request]
    split
    · exact parseOutcome_messageOk _
    · rfl
  · simp only [generate_coupon, _request]
    split
    · exact parseOutcome_messageOk _
    · rfl
  · exact parseOutcome_messageOk _
  · simp only [update_subscription, _request]
    split
    · rfl
    · exact parseOutcome_messageOk _
  · simp only [cancel_subscription, _request]
    split
    · exact parseOutcome_messageOk _
    · split
      · rfl
      · rfl
  · simp only [renew_subscription, _request]
    split
    · rfl
    · rfl

/-- C2 counterexample: cancel_subscription on a response with empty body and
status 200 completes with no result and no error: its outcome is the
implicit return None, which settles nothing, refuting that every operation
returns a mapping or raises. -/
theorem cancel_silent_success_counterexample :
    cancel_subscription apiW trW xpW "sub1" = OpOutcome.noneRet
    ∧ (cancel_subscription apiW trW xpW "sub1").settles = false := by
  exact ⟨rfl, rfl⟩

/-- C2 amended: every operation either returns a parsed mapping (renewal its
outcome tuple) or raises an error, never both since a call has exactly one
outcome, with one exception: cancel_subscription on an empty body with
status 200 completes with no result and no error. -/
theorem operations_settle (api : FastSpringAPI) (xp : XmlParse) (r : HttpResponse)
    (reference pfx : String) (sub : Mapping) (simulate : PyVal) :
    (get_order api (fun _ => r) xp reference).settles = true
    ∧ (generate_coupon api (fun _ => r) xp pfx).settles = true
    ∧ (get_subscription api (fun _ => r) xp reference).settles = true
    ∧ (update_subscription api (fun _ => r) xp reference sub).settles = true
    ∧ ((cancel_subscription api (fun _ => r) xp reference).settles = true
        ∨ (r.content = "" ∧ r.status_code = 200
            ∧ cancel_subscription api (fun _ => r) xp reference = OpOutcome.noneRet))
    ∧ ((renew_subscription api (fun _ => r) reference simulate)
          = (true, r.status_code, "", r.reason)
        ∨ (renew_subscription api (fun _ => r) reference simulate)
          = (false, r.status_code, "", r.reason)) := by
  refine ⟨?_, ?_, ?_, ?_, ?_, ?_⟩
  · simp only [get_order, _request]
    split
    · exact parseOutcome_settles _
    · rfl
  · simp only [generate_coupon, _request]
    split
    · exact parseOutcome_settles _
    · rfl
  · exact parseOutcome_settles _
  · simp only [update_subscription, _request]
    split
    · rfl
    · exact parseOutcome_settles _
  · simp only [cancel_subscription, _request]
    by_cases hc : r.content = ""
    · by_cases hs : r.status_code = 200
      · exact Or.inr ⟨hc, hs, by simp [hc, hs]⟩
      · left
        simp [hc, hs, OpOutcome.settles]
    · left
      simp only [if_pos hc]
      simp [hc, parseOutcome_settles]
  · simp only [renew_subscription, _request]
    split
    · exact Or.inl rfl
    · exact Or.inr rfl

/-- C3: cancel_subscription on an empty body with status 200 returns None
and raises nothing; on an empty body with any other status it raises the
operation error carrying that status, the empty message and the reason; on a
non-empty body it returns the mapping the parser yields. -/
theorem cancel_subscription_cases (api : FastSpringAPI) (xp : XmlParse)
    (reference : String) (r : HttpResponse) :
    (r.content = "" → r.status_code = 200 →
        cancel_subscription api (fun _ => r) xp reference = OpOutcome.noneRet)
    ∧ (r.content = "" → r.status_code ≠ 200 →
        cancel_subscription api (fun _ => r) xp reference
          = OpOutcome.fsexc ⟨"Could not cancel subscription", r.status_code, "", r.reason⟩)
    ∧ (∀ m : Mapping, r.content ≠ "" → xp r.content = some m →
        cancel_subscription api (fun _ => r) xp reference = OpOutcome.mapping m) := by
  refine ⟨?_, ?_, ?_⟩
  · intro hc hs
    simp [cancel_subscription, _request, hc, hs]
  · intro hc hs
    simp [cancel_subscription, _request, hc, hs]
  · intro m hc hp
    simp [cancel_subscription, _request, hc, hp, parseOutcome]

/-- Witness for C3: the three branches at concrete responses. -/
theorem cancel_subscription_cases_witness :
    cancel_subscription apiW trW xpW "sub1" = OpOutcome.noneRet
    ∧ cancel_subscription apiW trW404 xpW "sub1"
        = OpOutcome.fsexc ⟨"Could not cancel subscription", 404, "", "Not Found"⟩
    ∧ cancel_subscription apiW trWBody xpW "sub1" = OpOutcome.mapping mW := by
  refine ⟨?_, ?_, ?_⟩
  · exact (cancel_subscription_cases apiW xpW "sub1" ⟨"", 200, "OK"⟩).1 rfl rfl
  · exact (cancel_subscription_cases apiW xpW "sub1" ⟨"", 404, "Not Found"⟩).2.1 rfl
      (by decide)
  · exact (cancel_subscription_cases apiW xpW "sub1" ⟨"<x>1</x>", 200, "OK"⟩).2.2 mW
      (by decide) (by decide)

/-- C4: update_subscription on any non-200 status raises an error carrying
exactly that status and reason (and the always-empty message); on a 200
status it returns the mapping parsed from the body. -/
theorem update_subscription_cases (api : FastSpringAPI) (xp : XmlParse)
    (reference : String) (sub : Mapping) (r : HttpResponse) :
    (r.status_code ≠ 200 →
        update_subscription api (fun _ => r) xp reference sub
          = OpOutcome.fsexc ⟨"Could not update subscription", r.status_code, "", r.reason⟩)
    ∧ (∀ m : Mapping, r.status_code = 200 → xp r.content = some m →
        update_subscription api (fun _ => r) xp reference sub = OpOutcome.mapping m) := by
  constructor
  · intro hs
    simp [update_subscription, _request, hs]
  · intro m hs hp
    simp [update_subscription, _request, hs, hp, parseOutcome]

/-- Witness for C4: a 404 raises with status 404 and its reason; a 200 with
a parsable body returns the mapping. -/
theorem update_subscription_cases_witness :
    update_subscription apiW trW404 xpW "sub1" mW
        = OpOutcome.fsexc ⟨"Could not update subscription", 404, "", "Not Found"⟩
    ∧ update_subscription apiW trWBody xpW "sub1" mW = OpOutcome.mapping mW := by
  constructor
  · exact (update_subscription_cases apiW xpW "sub1" mW ⟨"", 404, "Not Found"⟩).1
      (by decide)
  · exact (update_subscription_cases apiW xpW "sub1" mW ⟨"<x>1</x>", 200, "OK"⟩).2 mW rfl
      (by decide)

/-- C5: get_order returns the parsed mapping exactly when the body is
non-empty and the parser yields it, and raises the operation error, carrying
the status, the empty message and the reason, exactly when the body is
empty; generate_coupon behaves the same way for every prefix. -/
theorem get_order_generate_coupon_success (api : FastSpringAPI) (xp : XmlParse)
    (reference pfx : String) (r : HttpResponse) :
    (∀ m : Mapping, get_order api (fun _ => r) xp reference = OpOutcome.mapping m
        ↔ (r.content ≠ "" ∧ xp r.content = some m))
    ∧ (get_order api (fun _ => r) xp reference
          = OpOutcome.fsexc ⟨"Could not get order information", r.status_code, "", r.reason⟩
        ↔ r.content = "")
    ∧ (∀ m : Mapping, generate_coupon api (fun _ => r) xp pfx = OpOutcome.mapping m
        ↔ (r.content ≠ "" ∧ xp r.content = some m))
    ∧ (generate_coupon api (fun _ => r) xp pfx
          = OpOutcome.fsexc ⟨"Could not generate coupon", r.status_code, "", r.reason⟩
        ↔ r.content = "") := by
  by_cases hc : r.content = "" <;>
    simp [get_order, generate_coupon, _request, hc, parseOutcome_eq_mapping,
      parseOutcome_ne_fsexc]

/-- C6: get_subscription checks no success condition: its outcome is exactly
the parse of the response body, unchanged under any status code or reason,
and it never raises a FastSpringException (only the parser can fail, for
instance on an empty body). -/
theorem get_subscription_unconditional (api : FastSpringAPI) (xp : XmlParse)
    (reference : String) (r : HttpResponse) :
    get_subscription api (fun _ => r) xp reference = parseOutcome (xp r.content)
    ∧ (∀ status reason,
        get_subscription api (fun _ => ⟨r.content, status, reason⟩) xp reference
          = get_subscription api (fun _ => r) xp reference)
    ∧ (get_subscription api (fun _ => r) xp reference).isFsExc = false := by
  refine ⟨rfl, fun _ _ => rfl, ?_⟩
  simp only [get_subscription, _request]
  cases xp r.content <;> rfl

/-- C10: renew_subscription sends the body simulate=value exactly when the
simulate argument is truthy; every falsy simulate value (None, the empty
string, False, the integer 0) sends no body at all and the call coincides
with the call that omits the argument (whose default is None). -/
theorem renew_subscription_simulate_body (api : FastSpringAPI) (transport : Transport)
    (reference : String) (simulate : PyVal) :
    ((_request_sent api "POST" ("subscription/" ++ reference ++ "/renew")
          (renewData simulate) true).body
        = if simulate.truthy then SentBody.str ("simulate=" ++ simulate.fmt)
          else SentBody.noBody)
    ∧ (simulate.truthy = false →
        renew_subscription api transport reference simulate
          = renew_subscription api transport reference PyVal.none)
    ∧ (PyVal.none.truthy = false ∧ (PyVal.str "").truthy = false
        ∧ (PyVal.bool false).truthy = false ∧ (PyVal.int 0).truthy = false) := by
  refine ⟨?_, ?_, by decide, by decide, by decide, by decide⟩
  · cases ht : simulate.truthy <;>
      simp [_request_sent, renewData, computeBody, ht, ReqBody.truthy]
  · intro h
    simp only [renew_subscription, renewData, h, Bool.false_eq_true, if_false]
    rfl

/-- Witness for C10: the falsy empty-string simulate value behaves exactly
like the omitted argument. -/
theorem renew_subscription_simulate_body_witness :
    renew_subscription apiW trW "sub1" (PyVal.str "")
        = renew_subscription apiW trW "sub1" PyVal.none
    ∧ (_request_sent apiW "POST" "subscription/sub1/renew"
          (renewData (PyVal.str "a")) true).body = SentBody.str "simulate=a" := by
  constructor
  · exact (renew_subscription_simulate_body apiW trW "sub1" (PyVal.str "")).2.1 rfl
  · exact (renew_subscription_simulate_body apiW trW "sub1" (PyVal.str "a")).1

end FastSpring
